import Mathlib

/-!
Verification of the DP83TC81x Ethernet PHY driver
(drivers/net/phy/dp83tc81x.c).

The driver functions are shallowly embedded as pure Lean functions.
Register transport (phy_read_mmd / phy_write_mmd, provided by the
surrounding kernel framework) is modelled by a `Bus` of outcome
functions: a read yields a C `int` (a register value when nonnegative,
a negative errno on failure), a write yields its `int` return code.
Side effects performed by a driver function (registers read, registers
written, ethtool-netlink publications) are returned explicitly as
traces alongside the C return value.

C `int` values are modelled as `Int`.  Where the C code applies a
bitwise mask to a possibly negative `int` (the mask macros expand to
`1UL << n`, so the operand is converted to a 64-bit unsigned long in
twos-complement), the conversion is made explicit by `toUL`.
-/

namespace DP83TC81x

/-! ### Register and constant definitions (from the #define block) -/

def MMD1F : Nat := 0x1f
def MMD1 : Nat := 0x1

def DP83TC81x_STRAP : Nat := 0x45d
def MII_DP83TC81x_RESET_CTRL : Nat := 0x1f
def DP83TC81x_CDCR : Nat := 0x1E
def TDR_DONE : Nat := 2          -- BIT(1)
def TDR_FAIL : Nat := 1          -- BIT(0)
def DP83TC81x_TDR_TC1 : Nat := 0x310
def DP83TC81x_TDR_START_BIT : Nat := 0x8000   -- BIT(15)
def PEAK_DETECT : Nat := 0x80    -- BIT(7)
def PEAK_SIGN : Nat := 0x40      -- BIT(6)

def DP83TC81x_HW_RESET : Nat := 0x8000  -- BIT(15)
def DP83TC81x_SW_RESET : Nat := 0x4000  -- BIT(14)

def DP83TC81x_MASTER_MODE : Nat := 0x200  -- BIT(9)
def DP83TC81x_RGMII_IS_EN : Nat := 0x80   -- BIT(7)

def DP83TC81x_dsp_reg_71 : Nat := 0x871
def MAX_SQI_VALUE : Nat := 0x7

/-- Kernel errno EINVAL; the driver returns `-EINVAL`. -/
def EINVAL : Int := 22

/-! ### ethtool-netlink constants (from uapi/linux/ethtool_netlink.h) -/

def ETHTOOL_A_CABLE_RESULT_CODE_UNSPEC : Int := 0
def ETHTOOL_A_CABLE_RESULT_CODE_OK : Int := 1
def ETHTOOL_A_CABLE_RESULT_CODE_OPEN : Int := 2
def ETHTOOL_A_CABLE_RESULT_CODE_SAME_SHORT : Int := 3

def ETHTOOL_A_CABLE_PAIR_A : Nat := 0

/-! ### Transport model -/

/-- Conversion of a C `int` to `unsigned long` (64-bit twos
complement), as happens when masking with a `BIT(n)` macro value. -/
def toUL (x : Int) : Nat := (x % (2 ^ 64 : Int)).toNat

/-- Outcomes of the register transport: `read mmd reg` is the C `int`
returned by `phy_read_mmd`, `write mmd reg val` the C `int` returned
by `phy_write_mmd`. -/
structure Bus where
  read : Nat → Nat → Int
  write : Nat → Nat → Nat → Int

/-- An outward publication to the ethtool diagnostics subsystem. -/
inductive Event where
  | faultLength (pair : Nat) (cm : Nat)   -- ethnl_cable_test_fault_length
  | result (pair : Nat) (code : Int)      -- ethnl_cable_test_result
deriving DecidableEq, Repr

/-- Per-device private state (struct dp83tc81x_private). -/
structure Priv where
  chip : Nat
  is_master : Bool
  is_rgmii : Bool
  is_sgmii : Bool
deriving DecidableEq, Repr

def DP83TC812_CT : Nat := 0
def DP83TC813_CT : Nat := 1
def DP83TC814_CT : Nat := 2

/-- One row of an init table (struct dp83tc81x_init_reg). -/
structure InitReg where
  MMD : Nat
  reg : Nat
  val : Nat
deriving DecidableEq, Repr

def DP83TC81x_tdr_config_init : List InitReg :=
  [⟨0x1F, 0x523, 0x0001⟩,
   ⟨0x1F, 0x827, 0x4800⟩,
   ⟨0x1F, 0x301, 0x1701⟩,
   ⟨0x1F, 0x303, 0x023D⟩,
   ⟨0x1F, 0x305, 0x0015⟩,
   ⟨0x1F, 0x306, 0x001A⟩,
   ⟨0x1F, 0x01f, 0x4000⟩,
   ⟨0x1F, 0x523, 0x0000⟩,
   ⟨0x1F, 0x01f, 0x0000⟩]

def DP83TC812_master_cs2_0_init : List InitReg :=
  [⟨0x1F, 0x001F, 0x8000⟩,
   ⟨0x1F, 0x0523, 0x0001⟩,
   ⟨0x1, 0x0834, 0xC001⟩,
   ⟨0x1F, 0x081C, 0x0FE2⟩,
   ⟨0x1F, 0x0872, 0x0300⟩,
   ⟨0x1F, 0x0879, 0x0F00⟩,
   ⟨0x1F, 0x0806, 0x2952⟩,
   ⟨0x1F, 0x0807, 0x3361⟩,
   ⟨0x1F, 0x0808, 0x3D7B⟩,
   ⟨0x1F, 0x083E, 0x045F⟩,
   ⟨0x1F, 0x0834, 0x8000⟩,
   ⟨0x1F, 0x0862, 0x00E8⟩,
   ⟨0x1F, 0x0896, 0x32CB⟩,
   ⟨0x1F, 0x003E, 0x0009⟩,
   ⟨0x1F, 0x001F, 0x4000⟩,
   ⟨0x1F, 0x0523, 0x0000⟩]

def DP83TC812_slave_cs2_0_init : List InitReg :=
  [⟨0x1F, 0x001F, 0x8000⟩,
   ⟨0x1F, 0x0523, 0x0001⟩,
   ⟨0x1, 0x0834, 0x8001⟩,
   ⟨0x1F, 0x0873, 0x0821⟩,
   ⟨0x1F, 0x0896, 0x22FF⟩,
   ⟨0x1F, 0x089E, 0x0000⟩,
   ⟨0x1F, 0x001F, 0x4000⟩,
   ⟨0x1F, 0x0523, 0x0000⟩]

/-! ### dp83tc81x_cable_test_report_trans

The pure decode of the packed TDR result register.  Returns the list
of fault-length publications it performs and the ethtool result code
it returns.  `result` is the `u32` parameter of the C function. -/

def dp83tc81x_cable_test_report_trans (result : Nat) : List Event × Int :=
  if result = 0 then
    ([], ETHTOOL_A_CABLE_RESULT_CODE_OK)
  else if result &&& PEAK_DETECT ≠ 0 then
    let length_of_fault := (result &&& 0x3F) * 100
    if result &&& PEAK_SIGN ≠ 0 then
      ([Event.faultLength ETHTOOL_A_CABLE_PAIR_A length_of_fault],
       ETHTOOL_A_CABLE_RESULT_CODE_OPEN)
    else
      ([Event.faultLength ETHTOOL_A_CABLE_PAIR_A length_of_fault],
       ETHTOOL_A_CABLE_RESULT_CODE_SAME_SHORT)
  else
    ([], ETHTOOL_A_CABLE_RESULT_CODE_UNSPEC)

end DP83TC81x

namespace DP83TC81x

/-! ### dp83tc81x_cable_test_report

Reads TDR_TC1; a negative read is propagated; otherwise the decoded
result code is published via ethnl_cable_test_result and 0 is
returned.  The output records the reads performed, the writes
performed and the publications, alongside the C return value. -/

structure StepOut where
  reads : List (Nat × Nat)
  writes : List (Nat × Nat × Nat)
  events : List Event
  ret : Int
deriving DecidableEq, Repr

def dp83tc81x_cable_test_report (bus : Bus) : StepOut :=
  let ret := bus.read MMD1F DP83TC81x_TDR_TC1
  if ret < 0 then
    ⟨[(MMD1F, DP83TC81x_TDR_TC1)], [], [], ret⟩
  else
    let d := dp83tc81x_cable_test_report_trans ret.toNat
    ⟨[(MMD1F, DP83TC81x_TDR_TC1)], [],
     d.1 ++ [Event.result ETHTOOL_A_CABLE_PAIR_A d.2], 0⟩

/-! ### dp83tc81x_cable_test_get_status

Sets *finished = false, reads CDCR, and branches on the TDR_DONE and
TDR_FAIL bits.  The C code does not check the read for a negative
errno before masking; masking a negative int with the unsigned-long
BIT() macros operates on the twos-complement image, modelled by
`toUL`. -/

structure GetStatusOut where
  reads : List (Nat × Nat)
  writes : List (Nat × Nat × Nat)
  events : List Event
  finished : Bool
  ret : Int
deriving DecidableEq, Repr

def dp83tc81x_cable_test_get_status (bus : Bus) : GetStatusOut :=
  let ret := bus.read MMD1F DP83TC81x_CDCR
  if toUL ret &&& TDR_DONE = 0 then
    ⟨[(MMD1F, DP83TC81x_CDCR)], [], [], false, 0⟩
  else if toUL ret &&& TDR_FAIL = 0 then
    let r := dp83tc81x_cable_test_report bus
    ⟨(MMD1F, DP83TC81x_CDCR) :: r.reads, r.writes, r.events, true, r.ret⟩
  else
    ⟨[(MMD1F, DP83TC81x_CDCR)], [], [], false, -EINVAL⟩

/-! ### dp83tc81x_write_seq, dp83tc81x_cable_test_start -/

/-- Issues the writes of an init table in order, stopping at the
first one whose outcome is nonzero; returns the writes issued and the
C return value (first failure, else 0). -/
def dp83tc81x_write_seq (bus : Bus) : List InitReg → List (Nat × Nat × Nat) × Int
  | [] => ([], 0)
  | r :: rest =>
    let ret := bus.write r.MMD r.reg r.val
    if ret ≠ 0 then
      ([(r.MMD, r.reg, r.val)], ret)
    else
      let t := dp83tc81x_write_seq bus rest
      ((r.MMD, r.reg, r.val) :: t.1, t.2)

/-- The start step: issues the TDR config table (result discarded),
writes the TDR start bit to CDCR (result discarded), and returns 0. -/
def dp83tc81x_cable_test_start (bus : Bus) : List (Nat × Nat × Nat) × Int :=
  let t := dp83tc81x_write_seq bus DP83TC81x_tdr_config_init
  let _ := bus.write MMD1F DP83TC81x_CDCR DP83TC81x_TDR_START_BIT
  (t.1 ++ [(MMD1F, DP83TC81x_CDCR, DP83TC81x_TDR_START_BIT)], 0)

/-! ### dp83tc81x_sqi, dp83tc81x_sqi_max -/

def dp83tc81x_sqi (bus : Bus) : Int :=
  let sqi := bus.read MMD1F DP83TC81x_dsp_reg_71
  if sqi < 0 then sqi
  else ((sqi.toNat >>> 1) &&& 0x7 : Nat)

def dp83tc81x_sqi_max (_bus : Bus) : Int := MAX_SQI_VALUE

/-! ### dp83tc81x_read_straps -/

/-- Reads the strap register; on failure propagates the error with
the private state untouched; otherwise sets is_master / is_rgmii to
true when the corresponding strap bit is set (and only then). -/
def dp83tc81x_read_straps (bus : Bus) (priv : Priv) : Priv × Int :=
  let strap := bus.read MMD1F DP83TC81x_STRAP
  if strap < 0 then
    (priv, strap)
  else
    let p1 := if strap.toNat &&& DP83TC81x_MASTER_MODE ≠ 0 then
                {priv with is_master := true} else priv
    let p2 := if strap.toNat &&& DP83TC81x_RGMII_IS_EN ≠ 0 then
                {p1 with is_rgmii := true} else p1
    (p2, 0)

/-! ### dp83tc81x_read_status

The outcomes of the two generic helpers are parameters: the result of
genphy_read_status and of genphy_c45_pma_baset1_read_master_slave.
The second result is assigned to ret and then the function returns
the literal 0. -/

def dp83tc81x_read_status (genphy_ret : Int) (ms_ret : Int) : Int :=
  if genphy_ret ≠ 0 then genphy_ret
  else
    let _ret := ms_ret
    0

/-! ### dp83tc81x_reset and dp83tc81x_chip_init

chip_init is modelled for its return value.  The assignments to the
phydev link-mode fields (autoneg/speed/duplex/supported) touch no
register and do not affect any return value, and the
phy_set_bits_mmd(MMD1F, 0x018B, BIT(6)) calls discard their result;
the bus write outcomes consumed are kept, the trace bookkeeping of
those calls is not needed by any claim. -/

def dp83tc81x_reset (bus : Bus) (hw_reset : Bool) : Int :=
  let v := if hw_reset then DP83TC81x_HW_RESET else DP83TC81x_SW_RESET
  let ret := bus.write MMD1F MII_DP83TC81x_RESET_CTRL v
  if ret ≠ 0 then ret else 0

/-- The kernel helper phy_set_bits_mmd: read, or in the bits, write
back; a failed read is returned without writing, else the write
return value is returned. -/
def phy_set_bits_mmd (bus : Bus) (mmd reg bits : Nat) : Int :=
  let v := bus.read mmd reg
  if v < 0 then v else bus.write mmd reg (v.toNat ||| bits)

def dp83tc81x_chip_init (bus : Bus) (priv : Priv) : Int :=
  let r1 := dp83tc81x_reset bus true
  if r1 ≠ 0 then r1
  else
    -- ret from this role write is overwritten before it is tested
    let _ := bus.write MMD1 0x0834 (if priv.is_master then 0xc001 else 0x8001)
    if priv.chip = DP83TC812_CT ∨ priv.chip = DP83TC813_CT ∨
       priv.chip = DP83TC814_CT then
      let seq := if priv.is_master then DP83TC812_master_cs2_0_init
                 else DP83TC812_slave_cs2_0_init
      let ret := (dp83tc81x_write_seq bus seq).2
      -- phy_set_bits_mmd(MMD1F, 0x018B, BIT(6)): result discarded
      let _ := phy_set_bits_mmd bus MMD1F 0x018B 0x40
      if ret ≠ 0 then ret
      else dp83tc81x_reset bus false
    else
      -EINVAL

/-! ### Theorems for claims C1 and C2 -/

/-- C1: dp83tc81x_cable_test_report_trans decodes raw value 0 to OK;
a value with bit 7 (PEAK_DETECT) set to OPEN when bit 6 (PEAK_SIGN)
is set and SAME_SHORT when it is clear, determined solely by bit 6;
and a nonzero value with bit 7 clear to UNSPEC. -/
theorem report_trans_classification (v : Nat) :
    (dp83tc81x_cable_test_report_trans 0).2 = ETHTOOL_A_CABLE_RESULT_CODE_OK ∧
    (v &&& PEAK_DETECT ≠ 0 →
      (dp83tc81x_cable_test_report_trans v).2 =
        (if v &&& PEAK_SIGN ≠ 0 then ETHTOOL_A_CABLE_RESULT_CODE_OPEN
         else ETHTOOL_A_CABLE_RESULT_CODE_SAME_SHORT)) ∧
    (v &&& PEAK_DETECT = 0 → v ≠ 0 →
      (dp83tc81x_cable_test_report_trans v).2 = ETHTOOL_A_CABLE_RESULT_CODE_UNSPEC) := by
  refine ⟨rfl, ?_, ?_⟩
  · intro h7
    have hv0 : v ≠ 0 := by
      intro h; subst h; exact h7 (by decide)
    unfold dp83tc81x_cable_test_report_trans
    simp only [hv0, if_false, h7, if_true]
    split <;> split <;> simp_all
  · intro h7 hv0
    unfold dp83tc81x_cable_test_report_trans
    simp [hv0, h7]

/-- Witness for C1 at concrete raw values 0x88 (short) and 0x48
(unspecified). -/
theorem report_trans_classification_witness :
    (dp83tc81x_cable_test_report_trans 0x88).2 = ETHTOOL_A_CABLE_RESULT_CODE_SAME_SHORT ∧
    (dp83tc81x_cable_test_report_trans 0x48).2 = ETHTOOL_A_CABLE_RESULT_CODE_UNSPEC := by
  constructor
  · have h := (report_trans_classification 0x88).2.1 (by decide)
    simpa using h
  · exact (report_trans_classification 0x48).2.2 (by decide) (by decide)

/-- C2 (counterexample): raw result 0xC8 has bit 6 (PEAK_SIGN) set,
so the code decodes it to OPEN, not SAME_SHORT as the claim states;
the fault distance 800 is as claimed. -/
theorem report_trans_0xC8_counterexample :
    (dp83tc81x_cable_test_report_trans 0xC8).2 = ETHTOOL_A_CABLE_RESULT_CODE_OPEN ∧
    (dp83tc81x_cable_test_report_trans 0xC8).2 ≠ ETHTOOL_A_CABLE_RESULT_CODE_SAME_SHORT ∧
    (0xC8 : Nat) &&& PEAK_SIGN ≠ 0 ∧
    (dp83tc81x_cable_test_report_trans 0xC8).1 =
      [Event.faultLength ETHTOOL_A_CABLE_PAIR_A 800] := by decide

/-- C2 (amended): when bit 7 of the raw value is set, the single
fault-length publication carries distance (v &&& 0x3F) * 100; the
publication depends only on the bits of v inside 0xFF
(= 0xC0 ||| 0x3F); and the concrete raw value 0xC8 decodes to OPEN
(its bit 6 being set) with distance 800. -/
theorem report_trans_distance (v : Nat) (h7 : v &&& PEAK_DETECT ≠ 0) :
    (dp83tc81x_cable_test_report_trans v).1 =
      [Event.faultLength ETHTOOL_A_CABLE_PAIR_A ((v &&& 0x3F) * 100)] ∧
    (dp83tc81x_cable_test_report_trans (v &&& 0xFF)).1 =
      (dp83tc81x_cable_test_report_trans v).1 ∧
    (dp83tc81x_cable_test_report_trans 0xC8).2 = ETHTOOL_A_CABLE_RESULT_CODE_OPEN ∧
    (dp83tc81x_cable_test_report_trans 0xC8).1 =
      [Event.faultLength ETHTOOL_A_CABLE_PAIR_A 800] := by
  have hv0 : v ≠ 0 := by
    intro h; subst h; exact h7 (by decide)
  constructor
  · unfold dp83tc81x_cable_test_report_trans
    simp only [hv0, if_false, h7, if_true]
    split <;> split <;> simp_all
  refine ⟨?_, by decide, by decide⟩
  have e7 : (0xFF : Nat) &&& PEAK_DETECT = PEAK_DETECT := by decide
  have e6 : (0xFF : Nat) &&& PEAK_SIGN = PEAK_SIGN := by decide
  have e3 : (0xFF : Nat) &&& 0x3F = 0x3F := by decide
  have h7m : v &&& 0xFF &&& PEAK_DETECT ≠ 0 := by
    rw [Nat.land_assoc, e7]; exact h7
  have h6m : v &&& 0xFF &&& PEAK_SIGN = v &&& PEAK_SIGN := by
    rw [Nat.land_assoc, e6]
  have h3m : v &&& 0xFF &&& 0x3F = v &&& 0x3F := by
    rw [Nat.land_assoc, e3]
  have hm0 : v &&& 0xFF ≠ 0 := by
    intro h
    exact h7m (by rw [h]; decide)
  unfold dp83tc81x_cable_test_report_trans
  simp only [hv0, hm0, if_false, h7, h7m, if_true, h6m, h3m]
  split <;> simp

/-- Witness for C2 at the raw value 0x1C8 (bits outside 0xFF set). -/
theorem report_trans_distance_witness :
    (dp83tc81x_cable_test_report_trans 0x1C8).1 =
      [Event.faultLength ETHTOOL_A_CABLE_PAIR_A 800] := by
  have h := (report_trans_distance 0x1C8 (by decide)).1
  simpa using h

/-! ### Theorems for claims C3, C4, C5 -/

/-- C3: when the CDCR read observes done (bit 1) and fail (bit 0)
both set, get_status leaves finished false, returns -EINVAL, and
never reaches the report path: the only register access is the CDCR
read itself, and nothing is published. -/
theorem get_status_done_fail (bus : Bus)
    (hdone : toUL (bus.read MMD1F DP83TC81x_CDCR) &&& TDR_DONE ≠ 0)
    (hfail : toUL (bus.read MMD1F DP83TC81x_CDCR) &&& TDR_FAIL ≠ 0) :
    (dp83tc81x_cable_test_get_status bus).finished = false ∧
    (dp83tc81x_cable_test_get_status bus).ret = -EINVAL ∧
    (dp83tc81x_cable_test_get_status bus).reads = [(MMD1F, DP83TC81x_CDCR)] ∧
    (dp83tc81x_cable_test_get_status bus).events = [] := by
  unfold dp83tc81x_cable_test_get_status
  simp [hdone, hfail]

/-- Witness for C3 at status value 0x0003. -/
theorem get_status_done_fail_witness :
    (dp83tc81x_cable_test_get_status ⟨fun _ _ => 3, fun _ _ _ => 0⟩).finished = false ∧
    (dp83tc81x_cable_test_get_status ⟨fun _ _ => 3, fun _ _ _ => 0⟩).ret = -EINVAL :=
  ⟨(get_status_done_fail ⟨fun _ _ => 3, fun _ _ _ => 0⟩ (by decide) (by decide)).1,
   (get_status_done_fail ⟨fun _ _ => 3, fun _ _ _ => 0⟩ (by decide) (by decide)).2.1⟩

/-- C4: when the CDCR read observes done set and fail clear,
get_status sets finished true and returns the outcome of the report
step; the report step propagates a negative TDR_TC1 read (publishing
nothing), and otherwise returns 0 after publishing the decoded
result. -/
theorem get_status_done_pass (bus : Bus)
    (hdone : toUL (bus.read MMD1F DP83TC81x_CDCR) &&& TDR_DONE ≠ 0)
    (hfail : toUL (bus.read MMD1F DP83TC81x_CDCR) &&& TDR_FAIL = 0) :
    (dp83tc81x_cable_test_get_status bus).finished = true ∧
    (dp83tc81x_cable_test_get_status bus).ret =
      (dp83tc81x_cable_test_report bus).ret ∧
    (bus.read MMD1F DP83TC81x_TDR_TC1 < 0 →
      (dp83tc81x_cable_test_get_status bus).ret = bus.read MMD1F DP83TC81x_TDR_TC1 ∧
      (dp83tc81x_cable_test_get_status bus).events = []) ∧
    (0 ≤ bus.read MMD1F DP83TC81x_TDR_TC1 →
      (dp83tc81x_cable_test_get_status bus).ret = 0 ∧
      (dp83tc81x_cable_test_get_status bus).events =
        (dp83tc81x_cable_test_report_trans (bus.read MMD1F DP83TC81x_TDR_TC1).toNat).1 ++
          [Event.result ETHTOOL_A_CABLE_PAIR_A
            (dp83tc81x_cable_test_report_trans (bus.read MMD1F DP83TC81x_TDR_TC1).toNat).2]) := by
  unfold dp83tc81x_cable_test_get_status
  simp only [hdone, hfail, if_true, if_false]
  refine ⟨by simp, by simp, ?_, ?_⟩
  · intro hneg
    unfold dp83tc81x_cable_test_report
    simp [hneg]
  · intro hpos
    have hneg : ¬ bus.read MMD1F DP83TC81x_TDR_TC1 < 0 := not_lt.mpr hpos
    unfold dp83tc81x_cable_test_report
    simp [hneg]

/-- Witness for C4: status 0x0002, result register 0x88 — finished,
return 0, short at 800 published. -/
theorem get_status_done_pass_witness :
    (dp83tc81x_cable_test_get_status
      ⟨fun _ r => if r = DP83TC81x_CDCR then 2 else 0x88, fun _ _ _ => 0⟩).finished = true ∧
    (dp83tc81x_cable_test_get_status
      ⟨fun _ r => if r = DP83TC81x_CDCR then 2 else 0x88, fun _ _ _ => 0⟩).ret = 0 :=
  ⟨(get_status_done_pass _ (by decide) (by decide)).1,
   ((get_status_done_pass
      ⟨fun _ r => if r = DP83TC81x_CDCR then 2 else 0x88, fun _ _ _ => 0⟩
      (by decide) (by decide)).2.2.2 (by decide)).1⟩

/-- C5: when the CDCR read observes the done bit clear, get_status
reports finished false and returns 0, and its only side effect is the
single CDCR read: no writes, no publications, no report invocation,
no driver-state change; being a pure function of the unchanged
register state, every repeated call yields the same. -/
theorem get_status_pending (bus : Bus)
    (hdone : toUL (bus.read MMD1F DP83TC81x_CDCR) &&& TDR_DONE = 0) :
    (dp83tc81x_cable_test_get_status bus).finished = false ∧
    (dp83tc81x_cable_test_get_status bus).ret = 0 ∧
    (dp83tc81x_cable_test_get_status bus).reads = [(MMD1F, DP83TC81x_CDCR)] ∧
    (dp83tc81x_cable_test_get_status bus).writes = [] ∧
    (dp83tc81x_cable_test_get_status bus).events = [] := by
  unfold dp83tc81x_cable_test_get_status
  simp [hdone]

/-- Witness for C5 at status value 0. -/
theorem get_status_pending_witness :
    (dp83tc81x_cable_test_get_status ⟨fun _ _ => 0, fun _ _ _ => 0⟩).finished = false ∧
    (dp83tc81x_cable_test_get_status ⟨fun _ _ => 0, fun _ _ _ => 0⟩).ret = 0 :=
  ⟨(get_status_pending ⟨fun _ _ => 0, fun _ _ _ => 0⟩ (by decide)).1,
   (get_status_pending ⟨fun _ _ => 0, fun _ _ _ => 0⟩ (by decide)).2.1⟩

/-! ### Theorem for claim C6 -/

/-- A bus whose CDCR status read fails with -EIO (-5); all other
operations succeed. -/
def busStatusErr5 : Bus :=
  ⟨fun _ r => if r = DP83TC81x_CDCR then -5 else 0, fun _ _ _ => 0⟩

/-- A bus whose CDCR status read fails with -ENXIO (-6); all other
operations succeed (TDR_TC1 reads 0). -/
def busStatusErr6 : Bus :=
  ⟨fun _ r => if r = DP83TC81x_CDCR then -6 else 0, fun _ _ _ => 0⟩

/-- A bus on which only the write to (MMD1F, 0x018B) — the
set-bits register-operation of chip_init — fails, with -EIO; every
other operation succeeds (reads return 0). -/
def busSetBitsFail : Bus :=
  ⟨fun _ _ => 0, fun m r _ => if m = MMD1F ∧ r = 0x018B then -5 else 0⟩

/-- C6 (code bug): transport errors are not surfaced verbatim
everywhere.  A CDCR read failing with -EIO is masked as status bits
(errno bit 0 and bit 1 both read as set) and get_status returns
-EINVAL instead of -EIO; a CDCR read failing with -ENXIO even marks
the session finished and publishes a decoded result, returning 0; and
chip_init returns 0 although its set-bits write to (MMD1F, 0x018B)
failed, that result being discarded. -/
theorem error_propagation_code_bug :
    busStatusErr5.read MMD1F DP83TC81x_CDCR = -5 ∧
    (dp83tc81x_cable_test_get_status busStatusErr5).ret = -EINVAL ∧
    (dp83tc81x_cable_test_get_status busStatusErr5).ret ≠ -5 ∧
    busStatusErr6.read MMD1F DP83TC81x_CDCR = -6 ∧
    (dp83tc81x_cable_test_get_status busStatusErr6).ret = 0 ∧
    (dp83tc81x_cable_test_get_status busStatusErr6).finished = true ∧
    phy_set_bits_mmd busSetBitsFail MMD1F 0x018B 0x40 = -5 ∧
    dp83tc81x_chip_init busSetBitsFail ⟨DP83TC812_CT, false, false, false⟩ = 0 := by
  refine ⟨rfl, ?_, ?_, rfl, ?_, ?_, ?_, ?_⟩ <;> decide

/-! ### Theorem for claim C7 -/

/-- C7: the start step returns 0 on every bus, whatever the outcomes
of its configuration writes, and the TDR start command write to CDCR
is always issued (it is the last write of the step). -/
theorem cable_test_start_always_ok (bus : Bus) :
    (dp83tc81x_cable_test_start bus).2 = 0 ∧
    (MMD1F, DP83TC81x_CDCR, DP83TC81x_TDR_START_BIT) ∈
      (dp83tc81x_cable_test_start bus).1 := by
  unfold dp83tc81x_cable_test_start
  simp

/-! ### Theorem for claim C8 -/

/-- C8: when the link-quality register read succeeds, dp83tc81x_sqi
returns bits 3:1 of the register, a value in [0, 7]; and
dp83tc81x_sqi_max returns 7 on every bus. -/
theorem sqi_range (bus : Bus)
    (h : 0 ≤ bus.read MMD1F DP83TC81x_dsp_reg_71) :
    0 ≤ dp83tc81x_sqi bus ∧
    dp83tc81x_sqi bus ≤ 7 ∧
    dp83tc81x_sqi bus =
      (((bus.read MMD1F DP83TC81x_dsp_reg_71).toNat >>> 1) &&& 0x7 : Nat) ∧
    dp83tc81x_sqi_max bus = 7 := by
  have hneg : ¬ bus.read MMD1F DP83TC81x_dsp_reg_71 < 0 := not_lt.mpr h
  have hval : dp83tc81x_sqi bus =
      (((bus.read MMD1F DP83TC81x_dsp_reg_71).toNat >>> 1) &&& 0x7 : Nat) := by
    unfold dp83tc81x_sqi
    simp [hneg]
  have hle : ((bus.read MMD1F DP83TC81x_dsp_reg_71).toNat >>> 1) &&& 0x7 ≤ 7 :=
    Nat.and_le_right
  refine ⟨?_, ?_, hval, rfl⟩
  · rw [hval]; positivity
  · rw [hval]; exact_mod_cast hle

/-- Witness for C8 at register value 0xF (bits 3:1 = 7). -/
theorem sqi_range_witness :
    dp83tc81x_sqi ⟨fun _ _ => 0xF, fun _ _ _ => 0⟩ = 7 := by
  have h := (sqi_range ⟨fun _ _ => 0xF, fun _ _ _ => 0⟩ (by decide)).2.2.1
  simpa using h

/-! ### Theorem for claim C9 -/

/-- C9: a successful strap read only ever raises the is_master and
is_rgmii flags: a flag whose strap bit is clear is left unchanged,
and a flag that is already true stays true whatever the strap
value. -/
theorem read_straps_monotone (bus : Bus) (priv : Priv)
    (h : 0 ≤ bus.read MMD1F DP83TC81x_STRAP) :
    (priv.is_master = true →
      (dp83tc81x_read_straps bus priv).1.is_master = true) ∧
    (priv.is_rgmii = true →
      (dp83tc81x_read_straps bus priv).1.is_rgmii = true) ∧
    ((bus.read MMD1F DP83TC81x_STRAP).toNat &&& DP83TC81x_MASTER_MODE = 0 →
      (dp83tc81x_read_straps bus priv).1.is_master = priv.is_master) ∧
    ((bus.read MMD1F DP83TC81x_STRAP).toNat &&& DP83TC81x_RGMII_IS_EN = 0 →
      (dp83tc81x_read_straps bus priv).1.is_rgmii = priv.is_rgmii) := by
  have hneg : ¬ bus.read MMD1F DP83TC81x_STRAP < 0 := not_lt.mpr h
  unfold dp83tc81x_read_straps
  simp only [hneg, if_false]
  refine ⟨?_, ?_, ?_, ?_⟩ <;> intro hh <;>
    split <;> split <;> simp_all

/-- Witness for C9: strap value 0 leaves an all-false private state
unchanged. -/
theorem read_straps_monotone_witness :
    (dp83tc81x_read_straps ⟨fun _ _ => 0, fun _ _ _ => 0⟩
      ⟨0, false, false, false⟩).1.is_master = false :=
  (read_straps_monotone ⟨fun _ _ => 0, fun _ _ _ => 0⟩
    ⟨0, false, false, false⟩ (by decide)).2.2.1 (by decide)

/-! ### Theorem for claim C10 -/

/-- C10: when genphy_read_status succeeds (returns 0),
dp83tc81x_read_status returns 0 whatever the master/slave status read
returned: that outcome is assigned and discarded, never
propagated. -/
theorem read_status_discards_ms_error (ms_ret : Int) :
    dp83tc81x_read_status 0 ms_ret = 0 := by
  unfold dp83tc81x_read_status
  simp

end DP83TC81x
